import Mathlib

/-!
Verification of the AI Voice Interview System core pipeline:
prompt construction, experience classification, question extraction,
score extraction, usage limiting, truncation, and the evaluate flow.
The definitions below are a shallow embedding of `app.py` and
`ai_evaluator.py`; text is modelled as `String` (with the underlying
`List Char` used for the character-level operations).
-/

/-- Python whitespace characters relevant to `str.strip()` / `\s`
(ASCII subset: space, tab, newline, carriage return, form feed, vertical tab). -/
def isPySpace (c : Char) : Bool :=
  c == ' ' || c == '\t' || c == '\n' || c == '\x0d' || c == '\x0c' || c == '\x0b'

/-- Boolean test that `p` occurs at the start of `l`. -/
def pfx : List Char → List Char → Bool
  | [], _ => true
  | _ :: _, [] => false
  | a :: as, b :: bs => a == b && pfx as bs

/-- Boolean substring test: `p` occurs somewhere in `l`. -/
def hasSub (p : List Char) : List Char → Bool
  | [] => pfx p []
  | c :: cs => pfx p (c :: cs) || hasSub p cs

/-- String-level substring test. -/
def containsText (p s : String) : Bool := hasSub p.data s.data

/-- Does some suffix of the list satisfy `p`?  Used to model searching a
regular-expression pattern at every start position, left to right. -/
def anyPos (p : List Char → Bool) : List Char → Bool
  | [] => p []
  | c :: cs => p (c :: cs) || anyPos p cs

/-- Drop leading whitespace, modelling a greedy `\s*`. -/
def skipWsL (l : List Char) : List Char := l.dropWhile isPySpace

/-- Python `str.strip()`: remove whitespace from both ends. -/
def stripWsLC (l : List Char) : List Char :=
  ((l.dropWhile isPySpace).reverse.dropWhile isPySpace).reverse

/-- Python `"text".split("\n")`: split on newline, keeping empty pieces
(`"".split("\n") == [""]`). -/
def splitNl : List Char → List (List Char)
  | [] => [[]]
  | c :: cs =>
    if c == '\n' then [] :: splitNl cs
    else
      match splitNl cs with
      | [] => [[c]]
      | l :: ls => (c :: l) :: ls

/-- ASCII lowercase of every character, modelling Python `str.lower()`
on the ASCII texts the classifier deals with. -/
def lowerLC (l : List Char) : List Char := l.map Char.toLower

/-- First position, scanning suffixes left to right, where `f` produces a
value: models `re.search` returning the leftmost match. -/
def firstMatch (f : List Char → Option (List Char)) : List Char → Option (List Char)
  | [] => f []
  | c :: cs =>
    match f (c :: cs) with
    | some v => some v
    | none => firstMatch f cs

/-! ## TextSanitizer: `truncate_text` (app.py lines 124-129, ai_evaluator.py lines 28-33) -/

/-- The truncation marker appended by `app.py`'s `truncate_text`. -/
def markerApp : String := "\n[Content truncated for processing]"

/-- The truncation marker appended by `ai_evaluator.py`'s `truncate_text`. -/
def markerEval : String := "\n[Text truncated for token safety]"

/-- `truncate_text(text, max_chars)` with the given marker:
empty for falsy input, `text[:max_chars] + marker` when too long,
unchanged otherwise. -/
def truncText (marker : String) (t : String) (maxChars : Nat) : String :=
  if t = "" then ""
  else if maxChars < t.data.length then String.mk (t.data.take maxChars) ++ marker
  else t

/-- `app.py` `truncate_text`. -/
def truncApp (t : String) (maxChars : Nat) : String := truncText markerApp t maxChars

/-- `ai_evaluator.py` `truncate_text`. -/
def truncEval (t : String) (maxChars : Nat) : String := truncText markerEval t maxChars

example : truncApp "" 5 = "" := by decide
example : truncApp "abc" 5 = "abc" := by decide
example : truncApp "abcdef" 3 = "abc" ++ markerApp := by decide

/-! ## ExperienceClassifier (app.py lines 294-307)

The three `re.search` calls use patterns built from literal words and the
shape `a\s*[-]?\s*b\s*word` (fresher) or `a\s*[-+]?\s*b\s*word` (mid,
senior).  Since whitespace, the separator characters and the digits are
pairwise disjoint character classes, the backtracking regex engine is
equivalent to the greedy deterministic matcher below. -/

/-- Match, at the start of the list, the regex `a\s*[seps]?\s*b\s*word`
(digit `a`, optional separator, digit `b`, then the literal `word`). -/
def matchRangeAt (a b : Char) (seps : List Char) (word : List Char) :
    List Char → Bool
  | [] => false
  | c :: rest =>
    c == a &&
      (let r1 := skipWsL rest
       let r2 :=
         match r1 with
         | d :: r => if seps.contains d then r else r1
         | [] => r1
       match skipWsL r2 with
       | d :: r4 => d == b && pfx word (skipWsL r4)
       | [] => false)

/-- The fresher regex `fresher|0\s*[-]?\s*1\s*year|0\s*[-]?\s*2\s*years|intern`
searched anywhere in the (lowercased) job description. -/
def fresherPat (l : List Char) : Bool :=
  hasSub "fresher".data l ||
  anyPos (matchRangeAt '0' '1' ['-'] "year".data) l ||
  anyPos (matchRangeAt '0' '2' ['-'] "years".data) l ||
  hasSub "intern".data l

/-- The mid regex `2\s*[-+]?\s*3\s*year|3\s*[-+]?\s*5\s*year`. -/
def midPat (l : List Char) : Bool :=
  anyPos (matchRangeAt '2' '3' ['-', '+'] "year".data) l ||
  anyPos (matchRangeAt '3' '5' ['-', '+'] "year".data) l

/-- The senior regex `5\s*[-+]?\s*7\s*year|senior|lead|architect`. -/
def seniorPat (l : List Char) : Bool :=
  anyPos (matchRangeAt '5' '7' ['-', '+'] "year".data) l ||
  hasSub "senior".data l ||
  hasSub "lead".data l ||
  hasSub "architect".data l

/-- Experience-level detection: lowercase the job description, then a
first-match-wins if/elif chain with default `"mid"`. -/
def classify (jd : String) : String :=
  let l := lowerLC jd.data
  if fresherPat l then "fresher"
  else if midPat l then "mid"
  else if seniorPat l then "senior"
  else "mid"

example : classify "3 years experience required" = "mid" := by decide
example : classify "fresher, 0-1 year" = "fresher" := by decide
example : classify "looking for a lead architect" = "senior" := by decide
example : classify "Senior Backend Architect, 6+ years" = "senior" := by decide
example : classify "2-3 years of Django" = "mid" := by decide
example : classify "anything else" = "mid" := by decide

/-! ## PromptBuilder (app.py lines 309-359) and the gateway wrapper
(ai_evaluator.py lines 94-127) -/

/-- The common preamble f-string of `generate_questions`: states the tier and
the candidate materials, substituting "Not provided" for falsy résumé or
job-description text. -/
def buildPreamble (level resumeText jobDescription : String) : String :=
  "\nYou are a professional real-world interviewer conducting a practical interview.\n\nThe candidate is a **"
  ++ level ++
  " level experience**.\n\nYour task is to generate EXACTLY 5 interview questions\nthat follow a **real interview flow** and **controlled difficulty**.\n\nCandidate Information:\n\nResume:\n"
  ++ (if resumeText = "" then "Not provided" else resumeText) ++
  "\n\nJob Description:\n"
  ++ (if jobDescription = "" then "Not provided" else jobDescription) ++
  "\n"

/-- The fresher-level instruction block (app.py lines 328-332). -/
def fresherInstr : String :=
  "\nSTRICT QUESTION STRUCTURE FOR FRESHER (0-1 Years):\n1. Introduction: Ask about their introduction, academic background, and a specific project mentioned in their resume.\n2-5. Core Concepts: Ask definitions and \"how things work\" regarding the tech stack in their resume. Complexity should be LOW to MEDIUM. Do not ask system design. Focus on fundamentals (e.g., OOPs, Basic SQL, Data Structures).\n"

/-- The mid-level instruction block (app.py lines 334-338). -/
def midInstr : String :=
  "\nSTRICT QUESTION STRUCTURE FOR MID-LEVEL (2-4 Years):\n1. Introduction: Ask about their previous role, why they want to switch, and a brief on their contribution to the last company.\n2-5. Practical Application: Ask MEDIUM complexity questions. Focus on \"Why did you choose this tech?\", \"What happens if...\", and code flow. Focus on real-world scenarios, error handling, and optimization. Do not go deep into complex system architecture yet.\n"

/-- The senior-level instruction block (app.py lines 340-344). -/
def seniorInstr : String :=
  "\nSTRICT QUESTION STRUCTURE FOR SENIOR (5+ Years):\n1. Introduction: Ask about their career progression, major projects that helped the client, and leadership experience.\n2-5. Architecture & Design: Ask MEDIUM-HIGH complexity questions. Focus on System Design (mid-level depth), Architecture decisions, Scalability, and impact on business. Ask \"How the system works end-to-end\".\n"

/-- `level_instruction` selection: fresher / mid / otherwise senior
(the else-branch of the if/elif chain). -/
def levelInstruction (level : String) : String :=
  if level = "fresher" then fresherInstr
  else if level = "mid" then midInstr
  else seniorInstr

/-- The common output-formatting rules appended when building `final_prompt`
(app.py lines 346-359), including the 12 trailing spaces on the opening
line of the triple-quoted literal. -/
def outputRules : String :=
  "            \n\n\nDifficulty Adjustment Rules:\n- If experience level is \"fresher\": ask medium basic and learning-oriented questions\n- If experience level is \"mid\": ask practical and project-depth questions\n- If experience level is \"senior\": ask deeper technical questions but avoid system design unless explicitly required\n\nOUTPUT RULES:\n- Output ONLY numbered questions (1 to 5)\n- Do not iclude answers.\n-Make it sound like a human is asking.\n- No explanations, no headings, no extra text\n"

/-- `final_prompt = prompt + level_instruction + <output rules>`
(app.py line 346). -/
def buildFinalPrompt (level resumeText jobDescription : String) : String :=
  buildPreamble level resumeText jobDescription ++ levelInstruction level ++ outputRules

/-- The user-role message content `generate_interview_questions` actually
sends to the model: `truncate_text(prompt, 3500)` with the
`ai_evaluator.py` marker (ai_evaluator.py line 114). -/
def gatewayUserContent (prompt : String) : String := truncEval prompt 3500

/-- Unicode normalisation applied to the résumé text in `generate_questions`
(app.py lines 275-276): en/em dashes become "-", non-breaking space
becomes " ". -/
def normalizeResume (l : List Char) : List Char :=
  l.map fun c =>
    if c == '\u2013' || c == '\u2014' then '-'
    else if c == '\u00a0' then ' ' else c

/-- The `prompt` variable of `generate_questions` (app.py line 309): built
from the truncated, normalised résumé and the truncated job description,
with the level detected from the truncated job description.  Note that this
is the common preamble only. -/
def questionGenPrompt (resumeRaw jdRaw : String) : String :=
  buildPreamble (classify (truncApp jdRaw 2000))
    (String.mk (normalizeResume (truncApp resumeRaw 3000).data))
    (truncApp jdRaw 2000)

/-- The `final_prompt` variable of `generate_questions` (app.py line 346):
preamble, tier-specific block, then output rules.  The source computes this
value but never uses it. -/
def questionGenFinalPrompt (resumeRaw jdRaw : String) : String :=
  buildFinalPrompt (classify (truncApp jdRaw 2000))
    (String.mk (normalizeResume (truncApp resumeRaw 3000).data))
    (truncApp jdRaw 2000)

/-- The user-message content that reaches the language-model gateway for a
question-generation request: app.py line 378 passes `prompt` (not
`final_prompt`) to `generate_interview_questions`, which truncates it to
3500 characters. -/
def questionGenSent (resumeRaw jdRaw : String) : String :=
  gatewayUserContent (questionGenPrompt resumeRaw jdRaw)


/-! ## QuestionExtractor (app.py lines 380-393) -/

/-- Characters removed by `l.lstrip("0123456789.-) ")`. -/
def isMarkerChar (c : Char) : Bool :=
  c.isDigit || c == '.' || c == '-' || c == ')' || c == ' '

/-- `lines = [l.strip() for l in questions_text.split("\n") if l.strip()]`:
the non-empty trimmed lines of the raw model output, in order. -/
def linesLC (raw : List Char) : List (List Char) :=
  (splitNl raw).filterMap fun l =>
    let s := stripWsLC l
    if s.isEmpty then none else some s

/-- `questions = [l.lstrip("0123456789.-) ").strip() for l in lines if len(l) > 10]`:
keep a line when its (pre-stripping) length exceeds 10, and emit the
marker-stripped, re-trimmed text. -/
def candLC (raw : List Char) : List (List Char) :=
  (linesLC raw).filterMap fun l =>
    if 10 < l.length then some (stripWsLC (l.dropWhile isMarkerChar)) else none

/-- String-level view of the parsed question candidates. -/
def parseQuestions (raw : String) : List String :=
  (candLC raw.data).map String.mk

/-- The fixed deterministic fallback question list (app.py lines 384-390),
verbatim including its typos. -/
def fallbackQuestions : List String :=
  [ "Tell me about yourself and uour Professional background .",
    "Which skills from your resume are most relevant to this role ?",
    "Explain a technical concept you know well.",
    "Describe a challenging problem you solved.",
    "What are your strengths and areas for improvement ?" ]

/-- The question set finally returned: the parsed candidates when there are
exactly 5 of them, otherwise the fallback list (app.py lines 383-390). -/
def extractQuestions (raw : String) : List String :=
  let qs := parseQuestions raw
  if qs.length = 5 then qs else fallbackQuestions

/-- The spec-worded variant of the candidate filter, for comparison with
`candLC`: it discards a line when the length measured AFTER stripping the
enumeration markers is at most 10 (spec section 4.5). -/
def specCandLC (raw : List Char) : List (List Char) :=
  (linesLC raw).filterMap fun l =>
    let s := stripWsLC (l.dropWhile isMarkerChar)
    if 10 < s.length then some s else none

/-- String-level view of the spec-worded candidate filter. -/
def specParseQuestions (raw : String) : List String :=
  (specCandLC raw.data).map String.mk

/-! ## ScoreExtractor (app.py lines 62-64)

`re.search(rf"{label}\s*[:\-]?\s*(\d+(\.\d+)?)", text, re.I)`: the label
is matched case-insensitively, then optional whitespace, an optional `:`
or `-`, optional whitespace, and a decimal number; group 1 is the number.
As the whitespace class, the separator class and the digits are pairwise
disjoint, the greedy deterministic matcher below is equivalent to the
backtracking engine on this pattern. -/

/-- Parse `\d+(\.\d+)?` at the start of the list, returning the matched
number text. -/
def scanNumber (l : List Char) : Option (List Char) :=
  let ds := l.takeWhile Char.isDigit
  if ds.isEmpty then none
  else
    match l.drop ds.length with
    | '.' :: rest =>
      let fs := rest.takeWhile Char.isDigit
      if fs.isEmpty then some ds else some (ds ++ '.' :: fs)
    | _ => some ds

/-- Try the score pattern at the start of `l`: the lowercased label as a
literal, `\s*`, optional `:` or `-`, `\s*`, then a decimal number. -/
def matchScoreAt (labelLower : List Char) (l : List Char) : Option (List Char) :=
  if pfx labelLower (lowerLC l) then
    let r1 := skipWsL (l.drop labelLower.length)
    let r2 :=
      match r1 with
      | c :: cs => if c == ':' || c == '-' then cs else r1
      | [] => r1
    scanNumber (skipWsL r2)
  else none

/-- `extract_score(label, text)`: the first match of the score pattern in
the text, or "0" when there is none. -/
def extract_score (label text : String) : String :=
  match firstMatch (matchScoreAt (lowerLC label.data)) text.data with
  | some ds => String.mk ds
  | none => "0"

example : extract_score "Overall Score" "Overall Score: 7.5/10" = "7.5" := by decide
example : extract_score "Grammar" "no grammar mentioned" = "0" := by decide
example : extract_score "Grammar" "the Grammar - 8 here" = "8" := by decide
example : extract_score "Confidence" "confidence 9.25" = "9.25" := by decide

/-! ## UsagePolicy and the question-generation flow (app.py lines 361-393) -/

/-- The limit check (app.py line 372): a new session is denied when the
count of prior interview-result rows for the email is at least 2. -/
def limitExceeded (priorCount : Nat) : Bool := 2 ≤ priorCount

/-- The tail of the `generate_questions` handler after the prompt is built:
check the usage limit, and only when it passes call the gateway and extract
the questions.  The second component records whether the gateway was
invoked. -/
def limitAndGenerate (priorCount : Nat) (gatewayResponse : String) :
    Option (List String) × Bool :=
  if limitExceeded priorCount then (none, false)
  else (some (extractQuestions gatewayResponse), true)

/-! ## The `/evaluate` flow (app.py lines 403-546) -/

/-- Python truthiness of an optional string field of the JSON body. -/
def pyTruthyOpt (s : Option String) : Bool :=
  match s with
  | none => false
  | some t => !t.isEmpty

/-- `send_email_safely` (app.py lines 165-189): every transport failure is
caught and turned into `False`; success returns `True`. -/
def send_email_safely (transport : Except String Unit) : Bool :=
  match transport with
  | Except.ok _ => true
  | Except.error _ => false

/-- A row of the `interview_results` table as inserted by `/evaluate`. -/
structure ResultRow where
  name : String
  email : String
  resumeEmail : Option String
  scorecard : String
deriving DecidableEq, Repr

/-- What the `/evaluate` handler produces: the JSON response fields, the
final state of the interview-results store, and whether an email send was
attempted. -/
structure EvalOutcome where
  success : Bool
  emailSent : Bool
  rawFeedback : String
  db : List ResultRow
  sendAttempted : Bool
deriving DecidableEq, Repr

/-- The `/evaluate` handler after the model call returned `feedback`
(app.py lines 459-543): only when both the submitted email and the
feedback are truthy does it build and send the scorecard email and insert
the result row; the response always reports success, with the send result
in `email_sent`. -/
def evaluateFlow (name : String) (email : Option String)
    (resumeEmail : Option String) (feedback : String)
    (transport : Except String Unit) (db : List ResultRow) : EvalOutcome :=
  if pyTruthyOpt email = true ∧ feedback ≠ "" then
    let sent := send_email_safely transport
    { success := true, emailSent := sent, rawFeedback := feedback,
      db := db ++ [⟨name, email.getD "", resumeEmail, feedback⟩],
      sendAttempted := true }
  else
    { success := true, emailSent := false, rawFeedback := feedback,
      db := db, sendAttempted := false }

/-! ## Helper lemmas -/

/-- The candidate comprehension of the question extractor, written as a
filter followed by a map. -/
theorem candLC_eq_filter (xs : List (List Char)) :
    (xs.filterMap fun l =>
        if 10 < l.length then some (stripWsLC (l.dropWhile isMarkerChar)) else none) =
      (xs.filter fun l => decide (10 < l.length)).map
        (fun l => stripWsLC (l.dropWhile isMarkerChar)) := by
  induction xs with
  | nil => rfl
  | cons x xs ih =>
    by_cases h : 10 < x.length <;> simp [List.filterMap_cons, List.filter_cons, h, ih]

/-- When the lowercased label never occurs in the lowercased text, the score
pattern matches at no position. -/
theorem firstMatch_matchScore_none (p : List Char) (l : List Char)
    (h : hasSub p (lowerLC l) = false) :
    firstMatch (matchScoreAt p) l = none := by
  induction l with
  | nil =>
    simp only [lowerLC, List.map_nil, hasSub] at h
    simp [firstMatch, matchScoreAt, lowerLC, h]
  | cons c cs ih =>
    simp only [lowerLC, List.map_cons, hasSub, Bool.or_eq_false_iff] at h
    obtain ⟨h1, h2⟩ := h
    have hm : matchScoreAt p (c :: cs) = none := by
      simp [matchScoreAt, lowerLC, h1]
    simp only [firstMatch, hm]
    exact ih (by simpa [lowerLC] using h2)

/-! ## Claim theorems -/

/-- C6: `truncate_text` (both the app.py and the ai_evaluator.py copy)
returns the empty string on falsy input, the input unchanged when its
length is at most maxChars, and otherwise exactly the first maxChars
characters followed by the respective truncation marker; it is a total
function, so no exception is ever raised. -/
theorem C6_truncate_behaviour (t : String) (n : Nat) :
    (t = "" → truncApp t n = "" ∧ truncEval t n = "") ∧
    (t.data.length ≤ n → truncApp t n = t ∧ truncEval t n = t) ∧
    (t ≠ "" → n < t.data.length →
      truncApp t n = String.mk (t.data.take n) ++ markerApp ∧
      truncEval t n = String.mk (t.data.take n) ++ markerEval) := by
  refine ⟨fun h => ?_, fun h => ?_, fun he hn => ?_⟩
  · subst h; exact ⟨rfl, rfl⟩
  · by_cases he : t = ""
    · subst he; exact ⟨rfl, rfl⟩
    · have hn : ¬ n < t.data.length := Nat.not_lt.mpr h
      unfold truncApp truncEval truncText
      rw [if_neg he, if_neg hn, if_neg he, if_neg hn]
      exact ⟨rfl, rfl⟩
  · unfold truncApp truncEval truncText
    rw [if_neg he, if_pos hn, if_neg he, if_pos hn]
    exact ⟨rfl, rfl⟩

theorem C6_truncate_behaviour_witness :
    truncApp "hello" 3 = String.mk ("hello".data.take 3) ++ markerApp ∧
    truncEval "hello" 3 = String.mk ("hello".data.take 3) ++ markerEval :=
  (C6_truncate_behaviour "hello" 3).2.2 (by decide) (by decide)

/-- C2: question extraction always yields exactly 5 strings: when the parse
produces exactly 5 candidate lines those trimmed, marker-stripped strings
are returned in order, and on any other count (including the empty string)
the fixed fallback list is returned verbatim; a partial question set is
never returned. -/
theorem C2_extract_exactly_five (raw : String) :
    ((parseQuestions raw).length = 5 → extractQuestions raw = parseQuestions raw) ∧
    ((parseQuestions raw).length ≠ 5 → extractQuestions raw = fallbackQuestions) ∧
    (extractQuestions raw).length = 5 ∧
    extractQuestions "" = fallbackQuestions := by
  refine ⟨fun h => ?_, fun h => ?_, ?_, by decide⟩
  · simp [extractQuestions, h]
  · simp [extractQuestions, h]
  · by_cases h : (parseQuestions raw).length = 5
    · rw [(by simp [extractQuestions, h] : extractQuestions raw = parseQuestions raw)]; exact h
    · have : extractQuestions raw = fallbackQuestions := by simp [extractQuestions, h]
      rw [this]; decide

theorem C2_extract_exactly_five_witness :
    extractQuestions "1. What is polymorphism in OOP today?\n2. Explain REST APIs in your own words.\n3) Describe a project you built recently.\n4 - How does a hash table work inside?\n5. What are your strengths at work?"
      = parseQuestions "1. What is polymorphism in OOP today?\n2. Explain REST APIs in your own words.\n3) Describe a project you built recently.\n4 - How does a hash table work inside?\n5. What are your strengths at work?" ∧
    extractQuestions "1. Too few questions came back this time.\n2. Only two lines were produced here." = fallbackQuestions :=
  ⟨(C2_extract_exactly_five "1. What is polymorphism in OOP today?\n2. Explain REST APIs in your own words.\n3) Describe a project you built recently.\n4 - How does a hash table work inside?\n5. What are your strengths at work?").1 (by decide),
   (C2_extract_exactly_five "1. Too few questions came back this time.\n2. Only two lines were produced here.").2.1 (by decide)⟩

/-- C5 counterexample: the line "1...........a" is a non-empty trimmed line
of length 13, so the code keeps it, yet its marker-stripped text "a" has
length 1 ≤ 10; under the claimed discard rule (stripped length ≤ 10 is
discarded) it would be dropped.  The code filters on the length measured
before marker stripping. -/
theorem C5_counterexample :
    parseQuestions "1...........a" = ["a"] ∧
    specParseQuestions "1...........a" = [] ∧
    parseQuestions "1...........a" ≠ specParseQuestions "1...........a" :=
  ⟨by decide, by decide, by decide⟩

/-- C5 amended: after splitting into non-empty trimmed lines, a line is
kept exactly when its length BEFORE stripping the leading enumeration
markers exceeds 10 characters (discarded when ≤ 10), and the kept lines
are then emitted with the markers stripped and whitespace re-trimmed. -/
theorem C5_amended_filter_before_stripping (raw : String) :
    parseQuestions raw =
      ((linesLC raw.data).filter fun l => decide (10 < l.length)).map
        (fun l => String.mk (stripWsLC (l.dropWhile isMarkerChar))) := by
  unfold parseQuestions candLC
  rw [candLC_eq_filter, List.map_map]
  rfl

/-- C3: the usage-limit check lets a question-generation session proceed
exactly when the count of prior interview-result rows is below 2, and a
denied request never reaches the gateway (second component false). -/
theorem C3_usage_limit (c : Nat) (resp : String) :
    (c < 2 → limitAndGenerate c resp = (some (extractQuestions resp), true)) ∧
    (2 ≤ c → limitAndGenerate c resp = (none, false)) := by
  constructor
  · intro h
    have h2 : ¬ (2 ≤ c) := Nat.not_le.mpr h
    simp [limitAndGenerate, limitExceeded, h2]
  · intro h
    simp [limitAndGenerate, limitExceeded, h]

theorem C3_usage_limit_witness :
    limitAndGenerate 0 "" = (some (extractQuestions ""), true) ∧
    limitAndGenerate 1 "" = (some (extractQuestions ""), true) ∧
    limitAndGenerate 2 "" = (none, false) ∧
    limitAndGenerate 7 "" = (none, false) :=
  ⟨(C3_usage_limit 0 "").1 (by decide), (C3_usage_limit 1 "").1 (by decide),
   (C3_usage_limit 2 "").2 (by decide), (C3_usage_limit 7 "").2 (by decide)⟩

/-- C4: score extraction searches case-insensitively for the label followed
optionally by ':' or '-' and then a decimal number, returning the first
matched number as a string; when the label is absent (no case-insensitive
occurrence) or present but not followed by a number, it returns "0" instead
of raising: in particular the two spec examples hold, and any text without
the label yields "0". -/
theorem C4_extract_score_behaviour :
    extract_score "Overall Score" "Overall Score: 7.5/10" = "7.5" ∧
    extract_score "Grammar" "no grammar mentioned" = "0" ∧
    ∀ label text : String,
      hasSub (lowerLC label.data) (lowerLC text.data) = false →
        extract_score label text = "0" := by
  refine ⟨by decide, by decide, fun label text h => ?_⟩
  unfold extract_score
  rw [firstMatch_matchScore_none _ _ h]

theorem C4_extract_score_behaviour_witness :
    extract_score "Technical Knowledge" "all fine here" = "0" :=
  C4_extract_score_behaviour.2.2 "Technical Knowledge" "all fine here" (by decide)

/-- C7: experience classification is a deterministic first-match-wins
ordered match on the lowercased job description — fresher patterns first,
then mid, then senior, with default mid — and the three concrete examples
of the spec classify as stated. -/
theorem C7_classifier_ordered_match :
    classify "3 years experience required" = "mid" ∧
    classify "fresher, 0-1 year" = "fresher" ∧
    classify "looking for a lead architect" = "senior" ∧
    (∀ jd : String, fresherPat (lowerLC jd.data) = true → classify jd = "fresher") ∧
    (∀ jd : String, fresherPat (lowerLC jd.data) = false →
      midPat (lowerLC jd.data) = true → classify jd = "mid") ∧
    (∀ jd : String, fresherPat (lowerLC jd.data) = false →
      midPat (lowerLC jd.data) = false → seniorPat (lowerLC jd.data) = true →
      classify jd = "senior") ∧
    (∀ jd : String, fresherPat (lowerLC jd.data) = false →
      midPat (lowerLC jd.data) = false → seniorPat (lowerLC jd.data) = false →
      classify jd = "mid") := by
  refine ⟨by decide, by decide, by decide, fun jd h1 => ?_, fun jd h1 h2 => ?_,
    fun jd h1 h2 h3 => ?_, fun jd h1 h2 h3 => ?_⟩
  · simp [classify, h1]
  · simp [classify, h1, h2]
  · simp [classify, h1, h2, h3]
  · simp [classify, h1, h2, h3]

theorem C7_classifier_ordered_match_witness :
    classify "internship opening" = "fresher" ∧
    classify "2-3 years required" = "mid" ∧
    classify "senior role" = "senior" ∧
    classify "a plain job" = "mid" :=
  ⟨C7_classifier_ordered_match.2.2.2.1 "internship opening" (by decide),
   C7_classifier_ordered_match.2.2.2.2.1 "2-3 years required" (by decide) (by decide),
   C7_classifier_ordered_match.2.2.2.2.2.1 "senior role" (by decide) (by decide) (by decide),
   C7_classifier_ordered_match.2.2.2.2.2.2 "a plain job" (by decide) (by decide) (by decide)⟩

/-- C8: a failed email transport never fails the evaluation request:
`send_email_safely` returns false instead of raising, the response still
reports success with `email_sent = false`, and the scorecard row is still
appended to the interview-results store. -/
theorem C8_email_failure_not_fatal (n : String) (e : Option String)
    (re : Option String) (fb : String) (err : String) (db : List ResultRow)
    (he : pyTruthyOpt e = true) (hf : fb ≠ "") :
    send_email_safely (Except.error err) = false ∧
    evaluateFlow n e re fb (Except.error err) db =
      { success := true, emailSent := false, rawFeedback := fb,
        db := db ++ [⟨n, e.getD "", re, fb⟩], sendAttempted := true } := by
  refine ⟨rfl, ?_⟩
  simp [evaluateFlow, he, hf, send_email_safely]

theorem C8_email_failure_not_fatal_witness :
    send_email_safely (Except.error "smtp down") = false ∧
    evaluateFlow "Alice" (some "alice@gmail.com") none "Overall Score: 7"
        (Except.error "smtp down") [] =
      { success := true, emailSent := false, rawFeedback := "Overall Score: 7",
        db := [⟨"Alice", "alice@gmail.com", none, "Overall Score: 7"⟩],
        sendAttempted := true } :=
  C8_email_failure_not_fatal "Alice" (some "alice@gmail.com") none
    "Overall Score: 7" "smtp down" [] (by decide) (by decide)

/-- C9: when the submitted email is missing/empty or the feedback is empty,
the evaluate flow inserts no row and attempts no email send, yet still
reports success with `email_sent = false` and the raw feedback; conversely
the store only changes when both a truthy email and non-empty feedback are
present. -/
theorem C9_skip_persist_and_send :
    (∀ (n : String) (e : Option String) (re : Option String) (fb : String)
        (tr : Except String Unit) (db : List ResultRow),
      (pyTruthyOpt e = false ∨ fb = "") →
        evaluateFlow n e re fb tr db =
          { success := true, emailSent := false, rawFeedback := fb, db := db,
            sendAttempted := false }) ∧
    (∀ (n : String) (e : Option String) (re : Option String) (fb : String)
        (tr : Except String Unit) (db : List ResultRow),
      (evaluateFlow n e re fb tr db).db ≠ db →
        pyTruthyOpt e = true ∧ fb ≠ "") := by
  constructor
  · intro n e re fb tr db h
    have hc : ¬ (pyTruthyOpt e = true ∧ fb ≠ "") := by
      rintro ⟨h1, h2⟩
      rcases h with h | h
      · rw [h1] at h; exact Bool.noConfusion h
      · exact h2 h
    simp [evaluateFlow, hc]
  · intro n e re fb tr db h
    by_cases hc : pyTruthyOpt e = true ∧ fb ≠ ""
    · exact hc
    · exact absurd (by simp [evaluateFlow, hc]) h

theorem C9_skip_persist_and_send_witness :
    evaluateFlow "Bob" none none "some feedback" (Except.ok ()) [] =
      { success := true, emailSent := false, rawFeedback := "some feedback",
        db := [], sendAttempted := false } ∧
    evaluateFlow "Cara" (some "") none "some feedback" (Except.ok ()) [] =
      { success := true, emailSent := false, rawFeedback := "some feedback",
        db := [], sendAttempted := false } ∧
    (pyTruthyOpt (some "c@gmail.com") = true ∧ "fb text" ≠ "") :=
  ⟨C9_skip_persist_and_send.1 "Bob" none none "some feedback" (Except.ok ()) []
      (Or.inl (by decide)),
   C9_skip_persist_and_send.1 "Cara" (some "") none "some feedback" (Except.ok ()) []
      (Or.inl (by decide)),
   C9_skip_persist_and_send.2 "Dan" (some "c@gmail.com") none "fb text"
      (Except.ok ()) [] (by decide)⟩

set_option maxRecDepth 200000

/-- C1 (exhibiting the defect): in the end-to-end senior scenario (empty
résumé text, job description "Senior Backend Architect, 6+ years") the
tier is classified senior and the senior instruction block occurs verbatim
in the `final_prompt` value the handler builds — but the text actually
passed to the question-generation gateway is the preamble-only `prompt`
variable (app.py line 378), which does not contain the senior block (nor
the common output-formatting rules): `final_prompt` is never used. -/
theorem C1_sent_prompt_lacks_senior_block :
    classify "Senior Backend Architect, 6+ years" = "senior" ∧
    containsText seniorInstr
      (questionGenFinalPrompt "" "Senior Backend Architect, 6+ years") = true ∧
    containsText outputRules
      (questionGenFinalPrompt "" "Senior Backend Architect, 6+ years") = true ∧
    containsText seniorInstr
      (questionGenSent "" "Senior Backend Architect, 6+ years") = false ∧
    containsText outputRules
      (questionGenSent "" "Senior Backend Architect, 6+ years") = false ∧
    questionGenSent "" "Senior Backend Architect, 6+ years" =
      questionGenPrompt "" "Senior Backend Architect, 6+ years" :=
  ⟨by decide, by decide, by decide, by decide, by decide, by decide⟩



/-- A résumé text at the 3000-character cap of the résumé truncation. -/
def resume3000 : String := String.mk (List.replicate 3000 'a')

/-- A 300-character job-description text (well within its 2000 cap). -/
def jd300 : String := String.mk (List.replicate 300 'b')

/-- Dropping past a prefix of known length. -/
theorem drop_chunk {α : Type} (l₁ l₂ : List α) (n m : Nat) (h : l₁.length = n) :
    (l₁ ++ l₂).drop (n + m) = l₂.drop m := by
  subst h
  rw [List.drop_append_eq_append_drop]
  simp

/-- Appending strings concatenates their character lists. -/
theorem strData_app (a b : String) : (a ++ b).data = a.data ++ b.data := rfl

/-- C10: the question-generation gateway wrapper truncates its entire user
prompt to 3500 characters, appending its truncation marker, before sending;
with a cap-length résumé (3000 characters of "a") and a 300-character job
description (of "b") the built prompt reaches 3605 characters, the message
actually sent is the prompt cut at 3500 characters plus the marker, and
the 105 cut characters are exactly the last 104 characters of the
job-description text plus the prompt's closing newline. -/
theorem C10_gateway_truncates_prompt :
    (∀ p : String, 3500 < p.data.length →
      gatewayUserContent p = String.mk (p.data.take 3500) ++ markerEval) ∧
    (questionGenPrompt resume3000 jd300).data.length = 3605 ∧
    questionGenSent resume3000 jd300 =
      String.mk ((questionGenPrompt resume3000 jd300).data.take 3500) ++ markerEval ∧
    (questionGenPrompt resume3000 jd300).data.drop 3500 =
      List.replicate 104 'b' ++ ['\n'] ∧
    jd300.data.drop 196 = List.replicate 104 'b' := by
  have hlenR : resume3000.data.length = 3000 := List.length_replicate 3000 'a'
  have hneR : resume3000 ≠ "" := by
    intro h
    rw [h] at hlenR
    exact absurd hlenR (by decide)
  have htR : truncApp resume3000 3000 = resume3000 := by
    unfold truncApp truncText
    rw [if_neg hneR, if_neg (by rw [hlenR] ; decide : ¬ 3000 < resume3000.data.length)]
  have hnorm0 : normalizeResume (List.replicate 3000 'a') = List.replicate 3000 'a' := by
    unfold normalizeResume
    rw [List.map_replicate]
    exact congrArg (List.replicate 3000) (by decide)
  have hnorm : String.mk (normalizeResume resume3000.data) = resume3000 :=
    congrArg String.mk hnorm0
  have htJ : truncApp jd300 2000 = jd300 := by decide
  have hcl : classify jd300 = "mid" := by decide
  have hneJ : jd300 ≠ "" := by decide
  have hq : questionGenPrompt resume3000 jd300 = buildPreamble "mid" resume3000 jd300 := by
    unfold questionGenPrompt
    rw [htJ, hcl, htR, hnorm]
  have hb : buildPreamble "mid" resume3000 jd300 =
      "\nYou are a professional real-world interviewer conducting a practical interview.\n\nThe candidate is a **"
      ++ "mid" ++
      " level experience**.\n\nYour task is to generate EXACTLY 5 interview questions\nthat follow a **real interview flow** and **controlled difficulty**.\n\nCandidate Information:\n\nResume:\n"
      ++ resume3000 ++
      "\n\nJob Description:\n"
      ++ jd300 ++
      "\n" := by
    unfold buildPreamble
    rw [if_neg hneR, if_neg hneJ]
  have hRd : resume3000.data = List.replicate 3000 'a' := rfl
  have hJd : jd300.data = List.replicate 300 'b' := rfl
  have hNl : ("\n" : String).data = ['\n'] := rfl
  have hdata : (questionGenPrompt resume3000 jd300).data =
      "\nYou are a professional real-world interviewer conducting a practical interview.\n\nThe candidate is a **".data ++
        ("mid".data ++
          (" level experience**.\n\nYour task is to generate EXACTLY 5 interview questions\nthat follow a **real interview flow** and **controlled difficulty**.\n\nCandidate Information:\n\nResume:\n".data ++
            (List.replicate 3000 'a' ++
              ("\n\nJob Description:\n".data ++
                (List.replicate 300 'b' ++ ['\n']))))) := by
    rewrite [hq, hb]
    rewrite [strData_app, strData_app, strData_app, strData_app, strData_app, strData_app]
    rewrite [hRd, hJd, hNl]
    simp only [List.append_assoc]
  have hlen : (questionGenPrompt resume3000 jd300).data.length = 3605 := by
    rewrite [hdata]
    simp only [List.length_append, List.length_replicate]
    decide
  have hneQ : questionGenPrompt resume3000 jd300 ≠ "" := by
    intro h
    rw [h] at hlen
    exact absurd hlen (by decide)
  have hltQ : 3500 < (questionGenPrompt resume3000 jd300).data.length := by
    rw [hlen]
    decide
  refine ⟨fun p hlt => ?_, hlen, ?_, ?_, by decide⟩
  · have hne : p ≠ "" := by
      intro h
      rw [h] at hlt
      exact absurd hlt (by decide)
    unfold gatewayUserContent truncEval truncText
    rw [if_neg hne, if_pos hlt]
  · unfold questionGenSent gatewayUserContent truncEval truncText
    rw [if_neg hneQ, if_pos hltQ]
  · rewrite [hdata]
    rewrite [show (3500 : Nat) =
      "\nYou are a professional real-world interviewer conducting a practical interview.\n\nThe candidate is a **".data.length + 3397 from by decide]
    rewrite [drop_chunk _ _ _ _ rfl]
    rewrite [show (3397 : Nat) = "mid".data.length + 3394 from by decide]
    rewrite [drop_chunk _ _ _ _ rfl]
    rewrite [show (3394 : Nat) =
      " level experience**.\n\nYour task is to generate EXACTLY 5 interview questions\nthat follow a **real interview flow** and **controlled difficulty**.\n\nCandidate Information:\n\nResume:\n".data.length + 3215 from by decide]
    rewrite [drop_chunk _ _ _ _ rfl]
    rewrite [show (3215 : Nat) = 3000 + 215 from by decide]
    rewrite [drop_chunk _ _ 3000 215 (List.length_replicate 3000 'a')]
    rewrite [show (215 : Nat) = "\n\nJob Description:\n".data.length + 196 from by decide]
    rewrite [drop_chunk _ _ _ _ rfl]
    rewrite [show (300 : Nat) = 196 + 104 from rfl, List.replicate_add, List.append_assoc]
    exact List.drop_left' (List.length_replicate 196 'b')

theorem C10_gateway_truncates_prompt_witness :
    gatewayUserContent (String.mk (List.replicate 3501 'x')) =
      String.mk ((String.mk (List.replicate 3501 'x')).data.take 3500) ++ markerEval :=
  C10_gateway_truncates_prompt.1 (String.mk (List.replicate 3501 'x'))
    (by show 3500 < (List.replicate 3501 'x').length
        rw [List.length_replicate]
        decide)
